import Mathlib

/-!
Verification of the Shopify 3D-model poller (`poller.py`).

The file embeds the data model and the pure/effect-traced behaviour of the
script: the SHA-256 based image fingerprint, the tracked-state map, and the
two `process_product` variants that appear in the source (the second
definition shadows the first after the module loads; the first is the one
executed by the `__main__` block).  Remote calls (metafield set, Meshy
generation, `stagedUploadsCreate` staging, the byte push to the staged URL,
media attach) are modelled by an environment that supplies each call's
outcome, and every run returns the list of performed effects so that frame
and ordering properties can be stated.  The two `staged_upload_glb`
implementations of the source are embedded separately on top of the staging
and posting oracles, since they differ observably.
-/

set_option maxRecDepth 4000

namespace Poller

/-! ## SHA-256 (as used by `image_fingerprint` via `hashlib.sha256`) -/

/-- Truncation to 32 bits. -/
def u32 (n : Nat) : Nat := n % 4294967296

/-- Right rotation of a 32-bit word. -/
def rotr (k x : Nat) : Nat := u32 ((x >>> k) ||| (x <<< (32 - k)))

/-- The first 64 primes; SHA-256 draws its constants from their roots. -/
def primes64 : List Nat :=
  [2, 3, 5, 7, 11, 13, 17, 19, 23, 29, 31, 37, 41, 43, 47, 53,
   59, 61, 67, 71, 73, 79, 83, 89, 97, 101, 103, 107, 109, 113, 127, 131,
   137, 139, 149, 151, 157, 163, 167, 173, 179, 181, 191, 193, 197, 199, 211, 223,
   227, 229, 233, 239, 241, 251, 257, 263, 269, 271, 277, 281, 283, 293, 307, 311]

/-- Binary search step for the integer cube root. -/
def icbrtGo (n : Nat) : Nat → Nat → Nat → Nat
  | 0, lo, _ => lo
  | fuel + 1, lo, hi =>
    if hi ≤ lo + 1 then lo
    else
      let mid := (lo + hi) / 2
      if mid * mid * mid ≤ n then icbrtGo n fuel mid hi else icbrtGo n fuel lo mid

/-- Integer cube root (largest `r` with `r ^ 3 ≤ n`). -/
def icbrt (n : Nat) : Nat := icbrtGo n 200 0 (n + 1)

/-- SHA-256 round constants: fractional cube roots of the first 64 primes. -/
def K64 : List Nat := primes64.map (fun p => icbrt (p * 2 ^ 96) % 4294967296)

/-- SHA-256 initial hash words: fractional square roots of the first 8 primes. -/
def H0 : List Nat := (primes64.take 8).map (fun p => Nat.sqrt (p * 2 ^ 64) % 4294967296)

/-- The eight working words of the SHA-256 compression state. -/
structure H8 where
  a : Nat
  b : Nat
  c : Nat
  d : Nat
  e : Nat
  f : Nat
  g : Nat
  h : Nat
deriving DecidableEq, Repr

def mask32 : Nat := 4294967295

/-- One SHA-256 compression round, consuming one `(constant, scheduleWord)` pair. -/
def shaStep (st : H8) (kw : Nat × Nat) : H8 :=
  let s1 := rotr 6 st.e ^^^ rotr 11 st.e ^^^ rotr 25 st.e
  let ch := (st.e &&& st.f) ^^^ ((st.e ^^^ mask32) &&& st.g)
  let t1 := u32 (st.h + s1 + ch + kw.1 + kw.2)
  let s0 := rotr 2 st.a ^^^ rotr 13 st.a ^^^ rotr 22 st.a
  let maj := (st.a &&& st.b) ^^^ (st.a &&& st.c) ^^^ (st.b &&& st.c)
  let t2 := u32 (s0 + maj)
  ⟨u32 (t1 + t2), st.a, st.b, st.c, u32 (st.d + t1), st.e, st.f, st.g⟩

/-- Big-endian bytes to 32-bit words (groups of four). -/
def toWords : List Nat → List Nat
  | b0 :: b1 :: b2 :: b3 :: rest => (((b0 * 256 + b1) * 256 + b2) * 256 + b3) :: toWords rest
  | _ => []

def aget (w : Array Nat) (i : Nat) : Nat := (w.get? i).getD 0

/-- Extend the 16-word message schedule, `fuel` more words. -/
def extendSchedule : Nat → Array Nat → Array Nat
  | 0, w => w
  | fuel + 1, w =>
    let i := w.size
    let w15 := aget w (i - 15)
    let w2 := aget w (i - 2)
    let s0 := rotr 7 w15 ^^^ rotr 18 w15 ^^^ (w15 >>> 3)
    let s1 := rotr 17 w2 ^^^ rotr 19 w2 ^^^ (w2 >>> 10)
    let nw := u32 (aget w (i - 16) + s0 + aget w (i - 7) + s1)
    extendSchedule fuel (w.push nw)

/-- Process one 64-byte chunk. -/
def compressChunk (hs : H8) (chunk : List Nat) : H8 :=
  let w := extendSchedule 48 (toWords chunk).toArray
  let st := (K64.zip w.toList).foldl shaStep hs
  ⟨u32 (hs.a + st.a), u32 (hs.b + st.b), u32 (hs.c + st.c), u32 (hs.d + st.d),
   u32 (hs.e + st.e), u32 (hs.f + st.f), u32 (hs.g + st.g), u32 (hs.h + st.h)⟩

/-- A `Nat` as eight big-endian bytes (the SHA-256 length field). -/
def beBytes8 (n : Nat) : List Nat :=
  [n / 2 ^ 56 % 256, n / 2 ^ 48 % 256, n / 2 ^ 40 % 256, n / 2 ^ 32 % 256,
   n / 2 ^ 24 % 256, n / 2 ^ 16 % 256, n / 2 ^ 8 % 256, n % 256]

/-- SHA-256 padding: `0x80`, zeros to 56 mod 64, then the bit length. -/
def padMessage (msg : List Nat) : List Nat :=
  msg ++ [128] ++ List.replicate ((119 - msg.length % 64) % 64) 0 ++ beBytes8 (msg.length * 8)

/-- Split a byte list into 64-byte chunks (structural recursion on a fuel
bound, which the list length always satisfies). -/
def splitChunksGo : Nat → List Nat → List (List Nat)
  | 0, _ => []
  | _, [] => []
  | fuel + 1, x :: rest => ((x :: rest).take 64) :: splitChunksGo fuel (rest.drop 63)

def splitChunks (l : List Nat) : List (List Nat) := splitChunksGo l.length l

def initH : H8 :=
  ⟨H0.getD 0 0, H0.getD 1 0, H0.getD 2 0, H0.getD 3 0,
   H0.getD 4 0, H0.getD 5 0, H0.getD 6 0, H0.getD 7 0⟩

/-- A 32-bit word as four big-endian bytes. -/
def beBytes4 (n : Nat) : List Nat := [n / 2 ^ 24 % 256, n / 2 ^ 16 % 256, n / 2 ^ 8 % 256, n % 256]

def h8Bytes (hs : H8) : List Nat :=
  beBytes4 hs.a ++ beBytes4 hs.b ++ beBytes4 hs.c ++ beBytes4 hs.d ++
  beBytes4 hs.e ++ beBytes4 hs.f ++ beBytes4 hs.g ++ beBytes4 hs.h

/-- SHA-256 of a byte list. -/
def sha256bytes (msg : List Nat) : List Nat :=
  h8Bytes ((splitChunks (padMessage msg)).foldl compressChunk initH)

/-- Lowercase hex digit. -/
def hexChar (n : Nat) : Char := if n < 10 then Char.ofNat (48 + n) else Char.ofNat (87 + n)

def byteHex (b : Nat) : String := String.mk [hexChar (b / 16), hexChar (b % 16)]

def hexOfBytes (bytes : List Nat) : String := String.join (bytes.map byteHex)

/-- UTF-8 encoding of one character (Python `str.encode()`). -/
def utf8Char (c : Char) : List Nat :=
  let n := c.toNat
  if n < 128 then [n]
  else if n < 2048 then [192 + n / 64, 128 + n % 64]
  else if n < 65536 then [224 + n / 4096, 128 + n / 64 % 64, 128 + n % 64]
  else [240 + n / 262144, 128 + n / 4096 % 64, 128 + n / 64 % 64, 128 + n % 64]

def utf8Encode (s : String) : List Nat := (s.data.map utf8Char).flatten

/-- `hashlib.sha256(s.encode()).hexdigest()`. -/
def sha256hexdigest (s : String) : String := hexOfBytes (sha256bytes (utf8Encode s))

/-! ## Data model (`poller.py` product/image views and the tracked-state map) -/

/-- An image node as returned by the product queries: `{ id url }`. -/
structure Image where
  id : String
  url : String
deriving DecidableEq, Repr

/-- A product node: id, title, image list, and the media content types of its
media edges (the only media field the script reads). -/
structure Product where
  id : String
  title : String
  images : List Image
  mediaTypes : List String
deriving DecidableEq, Repr

/-- `has_model3d` (`poller.py` lines 59-63 and 346-350): true when one of the
media edges has content type `MODEL_3D`. -/
def has_model3d (p : Product) : Bool := p.mediaTypes.contains "MODEL_3D"

/-- `latest_image` (`poller.py` lines 65-70 and 352-357): the first image of
the list, `None` when the list is empty. -/
def latest_image (p : Product) : Option Image := p.images.head?

/-- `image_fingerprint` (`poller.py` lines 72-75 and 359-362):
first 16 hex characters of the SHA-256 of `id + vertical-bar + url`. -/
def image_fingerprint (img : Image) : String :=
  (sha256hexdigest (img.id ++ "|" ++ img.url)).take 16

/-- One tracked entry of `state[pid]`: the dict
`last_fp / status / error?` written by `process_product`. -/
structure Entry where
  last_fp : String
  status : String
  error : Option String
deriving DecidableEq, Repr

/-- The `state` dict: product id to tracked entry. -/
abbrev TrackedState := List (String × Entry)

def lookupEntry : TrackedState → String → Option Entry
  | [], _ => none
  | (k, e) :: rest, pid => if k = pid then some e else lookupEntry rest pid

/-- `state[pid] = entry` (dict item assignment). -/
def setEntry : TrackedState → String → Entry → TrackedState
  | [], pid, e => [(pid, e)]
  | (k, old) :: rest, pid, e =>
    if k = pid then (k, e) :: rest else (k, old) :: setEntry rest pid e

/-- `state.get(pid, \x7b\x7d).get("last_fp")` (`poller.py` line 226). -/
def last_fp_of (st : TrackedState) (pid : String) : Option String :=
  (lookupEntry st pid).map Entry.last_fp

/-- The fingerprint check of `process_product` (lines 225-228), read as a
decision: process unless the tracked fingerprint equals the current one. -/
def should_process (st : TrackedState) (pid fp : String) : Bool :=
  if last_fp_of st pid = some fp then false else true

/-! ## Effects and environment

Every remote interaction of one `process_product` run is recorded as an
event; the environment supplies the outcome of each remote call (an
`Except.error` models the Python call raising). -/

/-- An observable effect of a run.  `metaSet` carries whether the best-effort
`set_meta` call succeeded (its failure is swallowed by the script);
`stageCall` is one `stagedUploadsCreate` mutation with its resource kind, and
`bytesUpload` is one push of the model bytes to a staged URL. -/
inductive Event where
  | metaSet (pid key value : String) (ok : Bool)
  | genCall (imageUrl : String)
  | stageCall (resource filename : String)
  | bytesUpload (url : String)
  | attachCall (pid : String)
  | stateWrite (pid : String) (entry : Entry)
  | persist
deriving DecidableEq, Repr

/-- One media node of a `productCreateMedia` response: `{ id status }`. -/
structure MediaItem where
  id : Option String
  status : Option String
deriving DecidableEq, Repr

/-- The `productCreateMedia` payload: user-error messages and media nodes. -/
structure AttachResp where
  mediaUserErrors : List String
  media : List MediaItem
deriving DecidableEq, Repr

/-- One staged target of a `stagedUploadsCreate` response: `{ url resourceUrl }`.
An empty string models a null, absent or empty field, all of which are falsy
in the guards of the first `staged_upload_glb`. -/
structure StagedTarget where
  url : String
  resourceUrl : String
deriving DecidableEq, Repr

/-- A `stagedUploadsCreate` payload: staged targets and user-error messages. -/
structure StageResp where
  stagedTargets : List StagedTarget
  userErrors : List String
deriving DecidableEq, Repr

/-- Outcomes of the remote calls made during one `process_product` run.
`stage` answers one `stagedUploadsCreate` mutation, keyed by the requested
resource kind; `post` answers one push of the model bytes to a staged URL
(an `Except.error` models the Python call raising). -/
structure Env where
  metaOk1 : Bool
  gen : String → Except String (List Nat)
  stage : String → Except String StageResp
  post : String → List Nat → Except String Unit
  attach : String → Except String AttachResp
  metaOk2 : Bool

/-- Python `x or default` for an optional string (`None` and `""` are falsy). -/
def pyOr : Option String → String → String
  | some s, d => if s = "" then d else s
  | none, d => d

/-- Python `bool(x)` for an optional string. -/
def pyTruthy : Option String → Bool
  | some s => !(s = "")
  | none => false

/-- The message of the `RuntimeError` raised by the first `attach_model_media`
on user errors (lines 171-178), with its invalid-url hint. -/
def attachErrMsg (errs : List String) : String :=
  let hint :=
    if errs.any (fun e => (e.splitOn "Invalid Model 3d url").length > 1) then
      " HINT: Ensure you passed the Shopify staged resourceUrl from the same stagedUploadsCreate call, filename ends with .glb, and mime is model/gltf-binary."
    else ""
  "productCreateMedia errors: " ++ String.intercalate ", " errs ++ "." ++ hint

/-- `attach_model_media` (first variant, lines 153-184): raises on gql failure
or non-empty `mediaUserErrors`, otherwise returns the first media node's id
and status. -/
def attach_model_media_v1 (r : Except String AttachResp) :
    Except String (Option String × Option String) :=
  match r with
  | Except.error e => Except.error e
  | Except.ok resp =>
    if !resp.mediaUserErrors.isEmpty then Except.error (attachErrMsg resp.mediaUserErrors)
    else
      match resp.media.head? with
      | some m => Except.ok (m.id, m.status)
      | none => Except.ok (none, none)

/-- Python-list-style rendering of a user-error list, for the composed
fallback error message of the first `staged_upload_glb`. -/
def fmtErrs (errs : List String) : String := String.intercalate ", " errs

/-- The usability guard `not target or not target.get("url")` of the first
`staged_upload_glb` (lines 114 and 120): keep the first staged target only
when it exists and its URL is truthy. -/
def targetIfUsable : Option StagedTarget → Option StagedTarget
  | some t => if t.url = "" then none else some t
  | none => none

/-- Lines 126-151 of the first `staged_upload_glb`: check `resourceUrl`
before posting, then push the bytes to the target URL and return the
resource URL. -/
def uploadToTarget (env : Env) (glb : List Nat) (t : StagedTarget) (pre : List Event) :
    Except String String × List Event :=
  if t.resourceUrl = "" then
    (Except.error
      ("stagedUploadsCreate returned an upload URL but missing resourceUrl; cannot attach later. url=" ++ t.url),
     pre)
  else
    match env.post t.url glb with
    | Except.error e => (Except.error e, pre ++ [Event.bytesUpload t.url])
    | Except.ok _ => (Except.ok t.resourceUrl, pre ++ [Event.bytesUpload t.url])

/-- First `staged_upload_glb` (lines 86-151): stage with resource `MODEL_3D`,
fall back to `FILE` when no usable target comes back, raise a composed error
when the fallback also fails, check `resourceUrl` before posting. -/
def staged_upload_glb_v1 (env : Env) (filename : String) (glb : List Nat) :
    Except String String × List Event :=
  match env.stage "MODEL_3D" with
  | Except.error e => (Except.error e, [Event.stageCall "MODEL_3D" filename])
  | Except.ok resp1 =>
    match targetIfUsable resp1.stagedTargets.head? with
    | some t => uploadToTarget env glb t [Event.stageCall "MODEL_3D" filename]
    | none =>
      match env.stage "FILE" with
      | Except.error e =>
        (Except.error e,
         [Event.stageCall "MODEL_3D" filename, Event.stageCall "FILE" filename])
      | Except.ok resp2 =>
        match targetIfUsable resp2.stagedTargets.head? with
        | some t =>
          uploadToTarget env glb t
            [Event.stageCall "MODEL_3D" filename, Event.stageCall "FILE" filename]
        | none =>
          (Except.error
            ("stagedUploadsCreate did not return a valid upload URL. MODEL_3D errors=" ++
              fmtErrs resp1.userErrors ++ ", FILE errors=" ++ fmtErrs resp2.userErrors),
           [Event.stageCall "MODEL_3D" filename, Event.stageCall "FILE" filename])

/-- Second `staged_upload_glb` (lines 373-397): a single `FILE` staging, the
first staged target taken by `[0]`-indexing (an empty list raises
`IndexError: list index out of range`), bytes posted with no `resourceUrl`
check, and `t["resourceUrl"]` returned as is. -/
def staged_upload_glb_v2 (env : Env) (filename : String) (glb : List Nat) :
    Except String String × List Event :=
  match env.stage "FILE" with
  | Except.error e => (Except.error e, [Event.stageCall "FILE" filename])
  | Except.ok resp =>
    match resp.stagedTargets.head? with
    | none => (Except.error "list index out of range", [Event.stageCall "FILE" filename])
    | some t =>
      match env.post t.url glb with
      | Except.error e =>
        (Except.error e, [Event.stageCall "FILE" filename, Event.bytesUpload t.url])
      | Except.ok _ =>
        (Except.ok t.resourceUrl, [Event.stageCall "FILE" filename, Event.bytesUpload t.url])

/-- The shared `except` block of both `process_product` variants
(lines 258-266 and 498-506): record a failed entry with the raised message,
persist, and best-effort echo the truncated message to the catalog. -/
def failOutcome (env : Env) (pid fp msg : String) (st : TrackedState) (pre : List Event) :
    Bool × TrackedState × List Event :=
  (false, setEntry st pid ⟨fp, "failed", some msg⟩,
    pre ++ [Event.stateWrite pid ⟨fp, "failed", some msg⟩, Event.persist,
            Event.metaSet pid "status" ("error:" ++ msg.take 120) env.metaOk2])

/-- First `process_product` (lines 221-266): on success records the attach
media status (`mstatus or "PROCESSING"`) and returns `bool(mid)`. -/
def process_product_v1 (env : Env) (p : Product) (st : TrackedState) :
    Bool × TrackedState × List Event :=
  match latest_image p with
  | none => (false, st, [])
  | some img =>
    if last_fp_of st p.id = some (image_fingerprint img) then (false, st, [])
    else if has_model3d p = true then
      (false, setEntry st p.id ⟨image_fingerprint img, "skipped_model_exists", none⟩,
        [Event.stateWrite p.id ⟨image_fingerprint img, "skipped_model_exists", none⟩,
         Event.persist])
    else
      let fp := image_fingerprint img
      let pre := [Event.metaSet p.id "status" "processing" env.metaOk1]
      match env.gen img.url with
      | Except.error msg => failOutcome env p.id fp msg st (pre ++ [Event.genCall img.url])
      | Except.ok glb =>
        match staged_upload_glb_v1 env "auto3d.glb" glb with
        | (Except.error msg, upEv) =>
          failOutcome env p.id fp msg st (pre ++ [Event.genCall img.url] ++ upEv)
        | (Except.ok resUrl, upEv) =>
          match attach_model_media_v1 (env.attach resUrl) with
          | Except.error msg =>
            failOutcome env p.id fp msg st
              (pre ++ [Event.genCall img.url] ++ upEv ++ [Event.attachCall p.id])
          | Except.ok mm =>
            (pyTruthy mm.1, setEntry st p.id ⟨fp, pyOr mm.2 "PROCESSING", none⟩,
              pre ++ [Event.genCall img.url] ++ upEv ++
                [Event.attachCall p.id,
                 Event.stateWrite p.id ⟨fp, pyOr mm.2 "PROCESSING", none⟩,
                 Event.persist,
                 Event.metaSet p.id "status" (pyOr mm.2 "PROCESSING") env.metaOk2])

/-- Second `process_product` (lines 462-506), the binding that shadows the
first after the module loads: its attach helper (lines 399-425) only prints
user errors, and on success it records status `"ready"` and returns `True`. -/
def process_product_v2 (env : Env) (p : Product) (st : TrackedState) :
    Bool × TrackedState × List Event :=
  match latest_image p with
  | none => (false, st, [])
  | some img =>
    if last_fp_of st p.id = some (image_fingerprint img) then (false, st, [])
    else if has_model3d p = true then
      (false, setEntry st p.id ⟨image_fingerprint img, "skipped_model_exists", none⟩,
        [Event.stateWrite p.id ⟨image_fingerprint img, "skipped_model_exists", none⟩,
         Event.persist])
    else
      let fp := image_fingerprint img
      let pre := [Event.metaSet p.id "status" "processing" env.metaOk1]
      match env.gen img.url with
      | Except.error msg => failOutcome env p.id fp msg st (pre ++ [Event.genCall img.url])
      | Except.ok glb =>
        match staged_upload_glb_v2 env "auto3d.glb" glb with
        | (Except.error msg, upEv) =>
          failOutcome env p.id fp msg st (pre ++ [Event.genCall img.url] ++ upEv)
        | (Except.ok resUrl, upEv) =>
          match env.attach resUrl with
          | Except.error msg =>
            failOutcome env p.id fp msg st
              (pre ++ [Event.genCall img.url] ++ upEv ++ [Event.attachCall p.id])
          | Except.ok _ =>
            (true, setEntry st p.id ⟨fp, "ready", none⟩,
              pre ++ [Event.genCall img.url] ++ upEv ++
                [Event.attachCall p.id,
                 Event.stateWrite p.id ⟨fp, "ready", none⟩,
                 Event.persist,
                 Event.metaSet p.id "status" "ready" env.metaOk2])

/-- The single-item branch of the first `__main__` block (lines 275-291):
exit 1 when the fetched product is `None`, otherwise run the (first)
`process_product` once and exit 0.  Returns the exit code with the resulting
state and effect trace. -/
def single_item_mode (env : Env) (st : TrackedState) (fetched : Option Product) :
    Nat × TrackedState × List Event :=
  match fetched with
  | none => (1, st, [])
  | some p =>
    let r := process_product_v1 env p st
    (0, r.2.1, r.2.2)

/-- A trace is write-through when every tracked-state mutation is immediately
followed by a persist of the state document. -/
def writeThrough : List Event → Bool
  | [] => true
  | Event.stateWrite _ _ :: Event.persist :: rest => writeThrough rest
  | Event.stateWrite _ _ :: _ => false
  | _ :: rest => writeThrough rest

/-- A trace free of tracked-state mutations. -/
def noWrite : List Event → Bool
  | [] => true
  | Event.stateWrite _ _ :: _ => false
  | _ :: rest => noWrite rest

/-! ## Concrete fixtures for witnesses and counterexamples -/

def imgA : Image := ⟨"imgid1", "https://x/a.png"⟩

/-- A product with one image and no media. -/
def prodA : Product := ⟨"gidA", "TitleA", [imgA], []⟩

/-- A product that already carries a `MODEL_3D` media item. -/
def prodModel : Product := ⟨"gidB", "TitleB", [imgA], ["MODEL_3D"]⟩

/-- A product with no image at all. -/
def prodNoImg : Product := ⟨"gidC", "TitleC", [], []⟩

/-- An attach response with no user errors and one READY media node. -/
def respOk : AttachResp := ⟨[], [⟨some "mediaid1", some "READY"⟩]⟩

/-- A staging response with one usable target and no user errors. -/
def stageRespOk : StageResp := ⟨[⟨"upurl1", "resurl1"⟩], []⟩

/-- An environment where generation, staging, byte upload and attach all
succeed. -/
def envOk : Env :=
  ⟨true, fun _ => Except.ok [1, 2, 3], fun _ => Except.ok stageRespOk,
   fun _ _ => Except.ok (), fun _ => Except.ok respOk, true⟩

/-- An environment where the generation call raises with message `"boom"`. -/
def envGenFail : Env :=
  ⟨true, fun _ => Except.error "boom", fun _ => Except.ok stageRespOk,
   fun _ _ => Except.ok (), fun _ => Except.ok respOk, true⟩

/-- An environment where the generation call raises with an empty message. -/
def envGenFailEmpty : Env :=
  ⟨true, fun _ => Except.error "", fun _ => Except.ok stageRespOk,
   fun _ _ => Except.ok (), fun _ => Except.ok respOk, true⟩

/-- An environment where every `stagedUploadsCreate` call returns an empty
`stagedTargets` list (and no user errors). -/
def envEmptyStage : Env :=
  ⟨true, fun _ => Except.ok [1, 2, 3], fun _ => Except.ok ⟨[], []⟩,
   fun _ _ => Except.ok (), fun _ => Except.ok respOk, true⟩

/-- A tracked state recording a failed attempt for `prodA` under the
fingerprint of its current (unchanged) image. -/
def stFailedA : TrackedState :=
  [("gidA", ⟨image_fingerprint imgA, "failed", some "boom"⟩)]

/-! ## Branch lemmas

General lemmas describing each control-flow branch of the two
`process_product` variants; the claim theorems below are instances. -/

theorem noimage_run (env : Env) (p : Product) (st : TrackedState)
    (h : latest_image p = none) :
    process_product_v1 env p st = (false, st, []) ∧
    process_product_v2 env p st = (false, st, []) := by
  constructor <;> simp [process_product_v1, process_product_v2, h]

theorem fpmatch_run (env : Env) (p : Product) (st : TrackedState) (img : Image)
    (h1 : latest_image p = some img)
    (h2 : last_fp_of st p.id = some (image_fingerprint img)) :
    process_product_v1 env p st = (false, st, []) ∧
    process_product_v2 env p st = (false, st, []) := by
  constructor <;> simp [process_product_v1, process_product_v2, h1, h2]

theorem skip_run (env : Env) (p : Product) (st : TrackedState) (img : Image)
    (h1 : latest_image p = some img)
    (h2 : last_fp_of st p.id ≠ some (image_fingerprint img))
    (h3 : has_model3d p = true) :
    process_product_v1 env p st =
      (false, setEntry st p.id ⟨image_fingerprint img, "skipped_model_exists", none⟩,
        [Event.stateWrite p.id ⟨image_fingerprint img, "skipped_model_exists", none⟩,
         Event.persist]) ∧
    process_product_v2 env p st =
      (false, setEntry st p.id ⟨image_fingerprint img, "skipped_model_exists", none⟩,
        [Event.stateWrite p.id ⟨image_fingerprint img, "skipped_model_exists", none⟩,
         Event.persist]) := by
  constructor <;> simp [process_product_v1, process_product_v2, h1, h2, h3]

theorem genfail_run (env : Env) (p : Product) (st : TrackedState) (img : Image)
    (msg : String)
    (h1 : latest_image p = some img)
    (h2 : last_fp_of st p.id ≠ some (image_fingerprint img))
    (h3 : has_model3d p = false)
    (hg : env.gen img.url = Except.error msg) :
    process_product_v1 env p st =
      (false, setEntry st p.id ⟨image_fingerprint img, "failed", some msg⟩,
       [Event.metaSet p.id "status" "processing" env.metaOk1, Event.genCall img.url,
        Event.stateWrite p.id ⟨image_fingerprint img, "failed", some msg⟩, Event.persist,
        Event.metaSet p.id "status" ("error:" ++ msg.take 120) env.metaOk2]) ∧
    process_product_v2 env p st =
      (false, setEntry st p.id ⟨image_fingerprint img, "failed", some msg⟩,
       [Event.metaSet p.id "status" "processing" env.metaOk1, Event.genCall img.url,
        Event.stateWrite p.id ⟨image_fingerprint img, "failed", some msg⟩, Event.persist,
        Event.metaSet p.id "status" ("error:" ++ msg.take 120) env.metaOk2]) := by
  constructor <;>
    simp [process_product_v1, process_product_v2, failOutcome, h1, h2, h3, hg]

theorem success_run_v2 (env : Env) (p : Product) (st : TrackedState) (img : Image)
    (glb : List Nat) (resUrl : String) (resp : AttachResp) (upEv : List Event)
    (h1 : latest_image p = some img)
    (h2 : last_fp_of st p.id ≠ some (image_fingerprint img))
    (h3 : has_model3d p = false)
    (hg : env.gen img.url = Except.ok glb)
    (hu : staged_upload_glb_v2 env "auto3d.glb" glb = (Except.ok resUrl, upEv))
    (ha : env.attach resUrl = Except.ok resp) :
    process_product_v2 env p st =
      (true, setEntry st p.id ⟨image_fingerprint img, "ready", none⟩,
       [Event.metaSet p.id "status" "processing" env.metaOk1,
        Event.genCall img.url] ++ upEv ++
       [Event.attachCall p.id,
        Event.stateWrite p.id ⟨image_fingerprint img, "ready", none⟩, Event.persist,
        Event.metaSet p.id "status" "ready" env.metaOk2]) := by
  simp [process_product_v2, h1, h2, h3, hg, hu, ha]

theorem success_run_v1 (env : Env) (p : Product) (st : TrackedState) (img : Image)
    (glb : List Nat) (resUrl : String) (mm : Option String × Option String)
    (upEv : List Event)
    (h1 : latest_image p = some img)
    (h2 : last_fp_of st p.id ≠ some (image_fingerprint img))
    (h3 : has_model3d p = false)
    (hg : env.gen img.url = Except.ok glb)
    (hu : staged_upload_glb_v1 env "auto3d.glb" glb = (Except.ok resUrl, upEv))
    (ha : attach_model_media_v1 (env.attach resUrl) = Except.ok mm) :
    process_product_v1 env p st =
      (pyTruthy mm.1, setEntry st p.id ⟨image_fingerprint img, pyOr mm.2 "PROCESSING", none⟩,
       [Event.metaSet p.id "status" "processing" env.metaOk1,
        Event.genCall img.url] ++ upEv ++
       [Event.attachCall p.id,
        Event.stateWrite p.id ⟨image_fingerprint img, pyOr mm.2 "PROCESSING", none⟩,
        Event.persist,
        Event.metaSet p.id "status" (pyOr mm.2 "PROCESSING") env.metaOk2]) := by
  simp [process_product_v1, h1, h2, h3, hg, hu, ha]

theorem uploadfail_run_v1 (env : Env) (p : Product) (st : TrackedState) (img : Image)
    (glb : List Nat) (msg : String) (upEv : List Event)
    (h1 : latest_image p = some img)
    (h2 : last_fp_of st p.id ≠ some (image_fingerprint img))
    (h3 : has_model3d p = false)
    (hg : env.gen img.url = Except.ok glb)
    (hu : staged_upload_glb_v1 env "auto3d.glb" glb = (Except.error msg, upEv)) :
    process_product_v1 env p st =
      (false, setEntry st p.id ⟨image_fingerprint img, "failed", some msg⟩,
       [Event.metaSet p.id "status" "processing" env.metaOk1,
        Event.genCall img.url] ++ upEv ++
       [Event.stateWrite p.id ⟨image_fingerprint img, "failed", some msg⟩, Event.persist,
        Event.metaSet p.id "status" ("error:" ++ msg.take 120) env.metaOk2]) := by
  simp [process_product_v1, failOutcome, h1, h2, h3, hg, hu]

theorem uploadfail_run_v2 (env : Env) (p : Product) (st : TrackedState) (img : Image)
    (glb : List Nat) (msg : String) (upEv : List Event)
    (h1 : latest_image p = some img)
    (h2 : last_fp_of st p.id ≠ some (image_fingerprint img))
    (h3 : has_model3d p = false)
    (hg : env.gen img.url = Except.ok glb)
    (hu : staged_upload_glb_v2 env "auto3d.glb" glb = (Except.error msg, upEv)) :
    process_product_v2 env p st =
      (false, setEntry st p.id ⟨image_fingerprint img, "failed", some msg⟩,
       [Event.metaSet p.id "status" "processing" env.metaOk1,
        Event.genCall img.url] ++ upEv ++
       [Event.stateWrite p.id ⟨image_fingerprint img, "failed", some msg⟩, Event.persist,
        Event.metaSet p.id "status" ("error:" ++ msg.take 120) env.metaOk2]) := by
  simp [process_product_v2, failOutcome, h1, h2, h3, hg, hu]

theorem uploadToTarget_noWrite (env : Env) (glb : List Nat) (t : StagedTarget)
    (pre : List Event) (h : noWrite pre = true) :
    noWrite (uploadToTarget env glb t pre).2 = true := by
  unfold uploadToTarget
  by_cases hr : t.resourceUrl = ""
  · simpa [hr] using h
  · cases hp : env.post t.url glb with
    | error e =>
      simp only [hr, hp, if_neg]
      induction pre with
      | nil => simp [noWrite]
      | cons e2 rest ih =>
        cases e2 <;> simp [noWrite] at h ⊢ <;> exact ih h
    | ok u =>
      simp only [hr, hp, if_neg]
      induction pre with
      | nil => simp [noWrite]
      | cons e2 rest ih =>
        cases e2 <;> simp [noWrite] at h ⊢ <;> exact ih h

theorem staged_upload_glb_v1_noWrite (env : Env) (fn : String) (glb : List Nat) :
    noWrite (staged_upload_glb_v1 env fn glb).2 = true := by
  unfold staged_upload_glb_v1
  cases hs1 : env.stage "MODEL_3D" with
  | error e => simp [noWrite]
  | ok resp1 =>
    cases ht1 : targetIfUsable resp1.stagedTargets.head? with
    | some t =>
      simp only [ht1]
      exact uploadToTarget_noWrite env glb t _ (by simp [noWrite])
    | none =>
      simp only [ht1]
      cases hs2 : env.stage "FILE" with
      | error e => simp [hs2, noWrite]
      | ok resp2 =>
        cases ht2 : targetIfUsable resp2.stagedTargets.head? with
        | some t =>
          simp only [hs2, ht2]
          exact uploadToTarget_noWrite env glb t _ (by simp [noWrite])
        | none => simp [hs2, ht2, noWrite]

theorem staged_upload_glb_v2_noWrite (env : Env) (fn : String) (glb : List Nat) :
    noWrite (staged_upload_glb_v2 env fn glb).2 = true := by
  unfold staged_upload_glb_v2
  cases hs : env.stage "FILE" with
  | error e => simp [noWrite]
  | ok resp =>
    cases ht : resp.stagedTargets.head? with
    | none => simp [ht, noWrite]
    | some t =>
      simp only [ht]
      cases hp : env.post t.url glb with
      | error e => simp [hp, noWrite]
      | ok u => simp [hp, noWrite]

theorem writeThrough_append (l1 l2 : List Event) (h1 : noWrite l1 = true)
    (h2 : writeThrough l2 = true) : writeThrough (l1 ++ l2) = true := by
  induction l1 with
  | nil => simpa using h2
  | cons e t ih =>
    cases e <;> simp [noWrite, writeThrough] at h1 ⊢ <;> exact ih h1

/-! ## Claims -/

/-- C1 (counterexample): a product whose tracked entry was recorded with
status `failed` under the fingerprint of its current, unchanged image is NOT
reprocessed: both `process_product` variants return `False` with no remote
call and no state change, so the failed attempt is not retried. -/
theorem C1_cex :
    lookupEntry stFailedA prodA.id =
      some ⟨image_fingerprint imgA, "failed", some "boom"⟩ ∧
    process_product_v1 envOk prodA stFailedA = (false, stFailedA, []) ∧
    process_product_v2 envOk prodA stFailedA = (false, stFailedA, []) :=
  ⟨rfl,
    (fpmatch_run envOk prodA stFailedA imgA rfl
      (by simp [last_fp_of, lookupEntry, stFailedA, prodA])).1,
    (fpmatch_run envOk prodA stFailedA imgA rfl
      (by simp [last_fp_of, lookupEntry, stFailedA, prodA])).2⟩

/-- C1 (amended): fingerprint equality alone prevents reprocessing — whenever
the tracked entry's last fingerprint equals the current image's fingerprint,
both `process_product` variants return `False` immediately, performing no
remote call and leaving the tracked state unchanged, regardless of the
recorded status (in particular a previously failed attempt is not retried). -/
theorem C1_fp_match_no_retry (env : Env) (p : Product) (st : TrackedState) (img : Image)
    (h1 : latest_image p = some img)
    (h2 : last_fp_of st p.id = some (image_fingerprint img)) :
    process_product_v1 env p st = (false, st, []) ∧
    process_product_v2 env p st = (false, st, []) :=
  fpmatch_run env p st img h1 h2

/-- C1 (witness): the amended no-retry theorem applied to a concrete product
with a tracked `failed` entry under the unchanged fingerprint. -/
theorem C1_fp_match_no_retry_witness :
    process_product_v1 envOk prodA stFailedA = (false, stFailedA, []) ∧
    process_product_v2 envOk prodA stFailedA = (false, stFailedA, []) :=
  C1_fp_match_no_retry envOk prodA stFailedA imgA rfl
    (by simp [last_fp_of, lookupEntry, stFailedA, prodA])

/-- C2 (counterexample): on a concrete fresh product where generation,
staging, byte upload and attach all succeed, the executed `process_product`
(the first definition — the first `__main__` block never falls through to
the second half of the file, so every run of the script calls it) records
the attach media status `"READY"` in the tracked entry, which is not the
`"ready"` the claim asserts. -/
theorem C2_cex :
    lookupEntry (process_product_v1 envOk prodA []).2.1 prodA.id =
      some ⟨image_fingerprint imgA, "READY", none⟩ ∧
    ("READY" : String) ≠ "ready" := by
  constructor
  · have h := success_run_v1 envOk prodA [] imgA [1, 2, 3] "resurl1"
      (some "mediaid1", some "READY")
      [Event.stageCall "MODEL_3D" "auto3d.glb", Event.bytesUpload "upurl1"]
      rfl (by simp [last_fp_of, lookupEntry]) rfl rfl rfl rfl
    have hpy : pyOr (some "READY") "PROCESSING" = "READY" := rfl
    rw [h]
    simp [setEntry, lookupEntry, prodA, hpy]
  · decide

/-- C2 (amended): for a product with at least one image, no pre-existing
3D-model media, and a fingerprint differing from the tracked one, when the
generate, staged-upload and attach steps all succeed, the executed
`process_product` (the first definition, the one every run of the script
calls) sets the tracked entry to `(fingerprint of the first image,
attach media status, defaulting to "PROCESSING" when falsy)`, persists it,
returns whether a media id was present, and best-effort echoes that same
status to the catalog; only the shadowed second definition records status
`"ready"` and returns `True`, echoing `"ready"`. -/
theorem C2_success (env : Env) (p : Product) (st : TrackedState) (img : Image)
    (glb : List Nat) (resUrl : String) (mm : Option String × Option String)
    (resp : AttachResp) (upEv1 upEv2 : List Event)
    (h1 : latest_image p = some img)
    (h2 : last_fp_of st p.id ≠ some (image_fingerprint img))
    (h3 : has_model3d p = false)
    (hg : env.gen img.url = Except.ok glb)
    (hu1 : staged_upload_glb_v1 env "auto3d.glb" glb = (Except.ok resUrl, upEv1))
    (ha1 : attach_model_media_v1 (env.attach resUrl) = Except.ok mm)
    (hu2 : staged_upload_glb_v2 env "auto3d.glb" glb = (Except.ok resUrl, upEv2))
    (ha2 : env.attach resUrl = Except.ok resp) :
    process_product_v1 env p st =
      (pyTruthy mm.1,
       setEntry st p.id ⟨image_fingerprint img, pyOr mm.2 "PROCESSING", none⟩,
       [Event.metaSet p.id "status" "processing" env.metaOk1,
        Event.genCall img.url] ++ upEv1 ++
       [Event.attachCall p.id,
        Event.stateWrite p.id ⟨image_fingerprint img, pyOr mm.2 "PROCESSING", none⟩,
        Event.persist,
        Event.metaSet p.id "status" (pyOr mm.2 "PROCESSING") env.metaOk2]) ∧
    process_product_v2 env p st =
      (true, setEntry st p.id ⟨image_fingerprint img, "ready", none⟩,
       [Event.metaSet p.id "status" "processing" env.metaOk1,
        Event.genCall img.url] ++ upEv2 ++
       [Event.attachCall p.id,
        Event.stateWrite p.id ⟨image_fingerprint img, "ready", none⟩, Event.persist,
        Event.metaSet p.id "status" "ready" env.metaOk2]) :=
  ⟨success_run_v1 env p st img glb resUrl mm upEv1 h1 h2 h3 hg hu1 ha1,
   success_run_v2 env p st img glb resUrl resp upEv2 h1 h2 h3 hg hu2 ha2⟩

/-- C2 (witness): the end-to-end success run on a concrete fresh product,
for both definitions. -/
theorem C2_success_witness :
    process_product_v1 envOk prodA [] =
      (pyTruthy (some "mediaid1"),
       setEntry [] prodA.id
         ⟨image_fingerprint imgA, pyOr (some "READY") "PROCESSING", none⟩,
       [Event.metaSet prodA.id "status" "processing" envOk.metaOk1,
        Event.genCall imgA.url] ++
       [Event.stageCall "MODEL_3D" "auto3d.glb", Event.bytesUpload "upurl1"] ++
       [Event.attachCall prodA.id,
        Event.stateWrite prodA.id
          ⟨image_fingerprint imgA, pyOr (some "READY") "PROCESSING", none⟩,
        Event.persist,
        Event.metaSet prodA.id "status" (pyOr (some "READY") "PROCESSING")
          envOk.metaOk2]) ∧
    process_product_v2 envOk prodA [] =
      (true, setEntry [] prodA.id ⟨image_fingerprint imgA, "ready", none⟩,
       [Event.metaSet prodA.id "status" "processing" envOk.metaOk1,
        Event.genCall imgA.url] ++
       [Event.stageCall "FILE" "auto3d.glb", Event.bytesUpload "upurl1"] ++
       [Event.attachCall prodA.id,
        Event.stateWrite prodA.id ⟨image_fingerprint imgA, "ready", none⟩,
        Event.persist,
        Event.metaSet prodA.id "status" "ready" envOk.metaOk2]) :=
  C2_success envOk prodA [] imgA [1, 2, 3] "resurl1"
    (some "mediaid1", some "READY") respOk
    [Event.stageCall "MODEL_3D" "auto3d.glb", Event.bytesUpload "upurl1"]
    [Event.stageCall "FILE" "auto3d.glb", Event.bytesUpload "upurl1"]
    rfl (by simp [last_fp_of, lookupEntry]) rfl rfl rfl rfl rfl rfl

/-- C3: a product that already carries a `MODEL_3D` media item and whose
fingerprint differs from the tracked one gets the tracked entry
`(fingerprint, "skipped_model_exists")`, persisted, and both variants stop
there: the trace shows no generate, upload or attach call. -/
theorem C3_skip_existing (env : Env) (p : Product) (st : TrackedState) (img : Image)
    (h1 : latest_image p = some img)
    (h2 : last_fp_of st p.id ≠ some (image_fingerprint img))
    (h3 : has_model3d p = true) :
    process_product_v1 env p st =
      (false, setEntry st p.id ⟨image_fingerprint img, "skipped_model_exists", none⟩,
        [Event.stateWrite p.id ⟨image_fingerprint img, "skipped_model_exists", none⟩,
         Event.persist]) ∧
    process_product_v2 env p st =
      (false, setEntry st p.id ⟨image_fingerprint img, "skipped_model_exists", none⟩,
        [Event.stateWrite p.id ⟨image_fingerprint img, "skipped_model_exists", none⟩,
         Event.persist]) :=
  skip_run env p st img h1 h2 h3

/-- C3 (witness): the existing-model guard on a concrete product carrying a
`MODEL_3D` media item. -/
theorem C3_skip_existing_witness :
    process_product_v1 envOk prodModel [] =
      (false, setEntry [] prodModel.id ⟨image_fingerprint imgA, "skipped_model_exists", none⟩,
        [Event.stateWrite prodModel.id ⟨image_fingerprint imgA, "skipped_model_exists", none⟩,
         Event.persist]) ∧
    process_product_v2 envOk prodModel [] =
      (false, setEntry [] prodModel.id ⟨image_fingerprint imgA, "skipped_model_exists", none⟩,
        [Event.stateWrite prodModel.id ⟨image_fingerprint imgA, "skipped_model_exists", none⟩,
         Event.persist]) :=
  C3_skip_existing envOk prodModel [] imgA rfl (by simp [last_fp_of, lookupEntry]) rfl

/-- C4: the should-process decision (the fingerprint check of
`process_product`) is `false` exactly when a tracked entry exists for the
product whose last fingerprint equals the given fingerprint, and `true` in
every other case, including when no entry exists. -/
theorem C4_should_process :
    ∀ (st : TrackedState) (pid fp : String),
      should_process st pid fp = false ↔
        ∃ e, lookupEntry st pid = some e ∧ e.last_fp = fp := by
  intro st pid fp
  unfold should_process last_fp_of
  cases h : lookupEntry st pid with
  | none => simp [h]
  | some e => by_cases hfp : e.last_fp = fp <;> simp [h, hfp]

/-- C5 (counterexample): when the generation step raises with an empty
message, the tracked entry's error string is the empty string — it is not a
non-empty truncated error string (the entry stores the raised message
verbatim; truncation only applies to the catalog echo). -/
theorem C5_cex :
    (process_product_v2 envGenFailEmpty prodA []).2.1 =
      [("gidA", ⟨image_fingerprint imgA, "failed", some ""⟩)] ∧
    (process_product_v1 envGenFailEmpty prodA []).2.1 =
      [("gidA", ⟨image_fingerprint imgA, "failed", some ""⟩)] := by
  have h := genfail_run envGenFailEmpty prodA [] imgA "" rfl
    (by simp [last_fp_of, lookupEntry]) rfl rfl
  rw [h.1, h.2]
  constructor <;> simp [setEntry, prodA]

/-- C5 (amended): if the generation step raises with message `msg`, both
`process_product` variants record the tracked entry
`(fingerprint, "failed", msg)` with the message stored verbatim (possibly
empty, untruncated), persist it, perform no upload or attach call, return
`False` instead of propagating, and best-effort echo `"error:"` plus the
message truncated to 120 characters — the outcome does not depend on whether
either catalog echo succeeds. -/
theorem C5_gen_failure (env : Env) (p : Product) (st : TrackedState) (img : Image)
    (msg : String)
    (h1 : latest_image p = some img)
    (h2 : last_fp_of st p.id ≠ some (image_fingerprint img))
    (h3 : has_model3d p = false)
    (hg : env.gen img.url = Except.error msg) :
    process_product_v1 env p st =
      (false, setEntry st p.id ⟨image_fingerprint img, "failed", some msg⟩,
       [Event.metaSet p.id "status" "processing" env.metaOk1, Event.genCall img.url,
        Event.stateWrite p.id ⟨image_fingerprint img, "failed", some msg⟩, Event.persist,
        Event.metaSet p.id "status" ("error:" ++ msg.take 120) env.metaOk2]) ∧
    process_product_v2 env p st =
      (false, setEntry st p.id ⟨image_fingerprint img, "failed", some msg⟩,
       [Event.metaSet p.id "status" "processing" env.metaOk1, Event.genCall img.url,
        Event.stateWrite p.id ⟨image_fingerprint img, "failed", some msg⟩, Event.persist,
        Event.metaSet p.id "status" ("error:" ++ msg.take 120) env.metaOk2]) :=
  genfail_run env p st img msg h1 h2 h3 hg

/-- C5 (witness): the generation-failure path on a concrete product with
message `"boom"`. -/
theorem C5_gen_failure_witness :
    process_product_v1 envGenFail prodA [] =
      (false, setEntry [] prodA.id ⟨image_fingerprint imgA, "failed", some "boom"⟩,
       [Event.metaSet prodA.id "status" "processing" envGenFail.metaOk1,
        Event.genCall imgA.url,
        Event.stateWrite prodA.id ⟨image_fingerprint imgA, "failed", some "boom"⟩,
        Event.persist,
        Event.metaSet prodA.id "status" ("error:" ++ ("boom" : String).take 120)
          envGenFail.metaOk2]) ∧
    process_product_v2 envGenFail prodA [] =
      (false, setEntry [] prodA.id ⟨image_fingerprint imgA, "failed", some "boom"⟩,
       [Event.metaSet prodA.id "status" "processing" envGenFail.metaOk1,
        Event.genCall imgA.url,
        Event.stateWrite prodA.id ⟨image_fingerprint imgA, "failed", some "boom"⟩,
        Event.persist,
        Event.metaSet prodA.id "status" ("error:" ++ ("boom" : String).take 120)
          envGenFail.metaOk2]) :=
  C5_gen_failure envGenFail prodA [] imgA "boom" rfl
    (by simp [last_fp_of, lookupEntry]) rfl rfl

/-- C6 (counterexample): two images differing in both identifier and URL can
share a fingerprint, because the identifier and URL are joined with a
vertical bar before hashing: `("a|b", "c")` and `("a", "b|c")` produce the
same base string and hence the same fingerprint. -/
theorem C6_cex :
    (Image.mk "a|b" "c").id ≠ (Image.mk "a" "b|c").id ∧
    image_fingerprint (Image.mk "a|b" "c") = image_fingerprint (Image.mk "a" "b|c") := by
  refine ⟨by decide, ?_⟩
  unfold image_fingerprint
  rw [show ((Image.mk "a|b" "c").id ++ "|" ++ (Image.mk "a|b" "c").url : String) =
      (Image.mk "a" "b|c").id ++ "|" ++ (Image.mk "a" "b|c").url from by decide]

/-- C6 (amended): `image_fingerprint` is a pure deterministic function of the
`(identifier, URL)` pair — identical pairs always produce equal fingerprints
— and more precisely it depends only on the joined string
`identifier + "|" + URL`, so distinct pairs whose joins coincide collide
(and the 16-hex-character truncation admits hash collisions in principle). -/
theorem C6_fingerprint_deterministic :
    (∀ i1 i2 : Image, i1.id = i2.id → i1.url = i2.url →
      image_fingerprint i1 = image_fingerprint i2) ∧
    (∀ i1 i2 : Image, i1.id ++ "|" ++ i1.url = i2.id ++ "|" ++ i2.url →
      image_fingerprint i1 = image_fingerprint i2) := by
  constructor
  · intro i1 i2 h1 h2
    unfold image_fingerprint
    rw [h1, h2]
  · intro i1 i2 h
    unfold image_fingerprint
    rw [h]

/-- C6 (witness): the dependence on the joined string, applied to the
concrete colliding pair. -/
theorem C6_fingerprint_deterministic_witness :
    image_fingerprint (Image.mk "a|b" "c") = image_fingerprint (Image.mk "a" "b|c") :=
  C6_fingerprint_deterministic.2 (Image.mk "a|b" "c") (Image.mk "a" "b|c") rfl

/-- C7: a product whose image list is empty is skipped by both
`process_product` variants with no remote call, no state mutation and no
persist — the run returns `False` with the tracked state unchanged and an
empty effect trace. -/
theorem C7_no_image (env : Env) (p : Product) (st : TrackedState)
    (h : p.images = []) :
    process_product_v1 env p st = (false, st, []) ∧
    process_product_v2 env p st = (false, st, []) := by
  have h1 : latest_image p = none := by simp [latest_image, h]
  constructor <;> simp [process_product_v1, process_product_v2, h1]

/-- C7 (witness): the image-less product is skipped with no effect. -/
theorem C7_no_image_witness :
    process_product_v1 envOk prodNoImg [] = (false, [], []) ∧
    process_product_v2 envOk prodNoImg [] = (false, [], []) :=
  C7_no_image envOk prodNoImg [] rfl

/-- C8: write-through — on every input, every tracked-state mutation in the
effect trace of either `process_product` variant is immediately followed by
a persist of the state document. -/
theorem C8_write_through : ∀ (env : Env) (p : Product) (st : TrackedState),
    writeThrough (process_product_v1 env p st).2.2 = true ∧
    writeThrough (process_product_v2 env p st).2.2 = true := by
  intro env p st
  constructor
  · cases himg : latest_image p with
    | none => simp [process_product_v1, himg, writeThrough]
    | some img =>
      by_cases hfp : last_fp_of st p.id = some (image_fingerprint img)
      · simp [process_product_v1, himg, hfp, writeThrough]
      · by_cases hm : has_model3d p = true
        · simp [process_product_v1, himg, hfp, hm, writeThrough]
        · cases hg : env.gen img.url with
          | error msg =>
            simp [process_product_v1, himg, hfp, hm, hg, failOutcome, writeThrough]
          | ok glb =>
            have hnw := staged_upload_glb_v1_noWrite env "auto3d.glb" glb
            rcases hup : staged_upload_glb_v1 env "auto3d.glb" glb with ⟨upRes, upEv⟩
            rw [hup] at hnw
            cases upRes with
            | error msg =>
              simp [process_product_v1, himg, hfp, hm, hg, hup, failOutcome, writeThrough]
              exact writeThrough_append _ _ hnw (by simp [writeThrough])
            | ok resUrl =>
              cases ha : attach_model_media_v1 (env.attach resUrl) with
              | error msg =>
                simp [process_product_v1, himg, hfp, hm, hg, hup, ha, failOutcome,
                  writeThrough]
                exact writeThrough_append _ _ hnw (by simp [writeThrough])
              | ok mm =>
                simp [process_product_v1, himg, hfp, hm, hg, hup, ha, writeThrough]
                exact writeThrough_append _ _ hnw (by simp [writeThrough])
  · cases himg : latest_image p with
    | none => simp [process_product_v2, himg, writeThrough]
    | some img =>
      by_cases hfp : last_fp_of st p.id = some (image_fingerprint img)
      · simp [process_product_v2, himg, hfp, writeThrough]
      · by_cases hm : has_model3d p = true
        · simp [process_product_v2, himg, hfp, hm, writeThrough]
        · cases hg : env.gen img.url with
          | error msg =>
            simp [process_product_v2, himg, hfp, hm, hg, failOutcome, writeThrough]
          | ok glb =>
            have hnw := staged_upload_glb_v2_noWrite env "auto3d.glb" glb
            rcases hup : staged_upload_glb_v2 env "auto3d.glb" glb with ⟨upRes, upEv⟩
            rw [hup] at hnw
            cases upRes with
            | error msg =>
              simp [process_product_v2, himg, hfp, hm, hg, hup, failOutcome, writeThrough]
              exact writeThrough_append _ _ hnw (by simp [writeThrough])
            | ok resUrl =>
              cases ha : env.attach resUrl with
              | error msg =>
                simp [process_product_v2, himg, hfp, hm, hg, hup, ha, failOutcome,
                  writeThrough]
                exact writeThrough_append _ _ hnw (by simp [writeThrough])
              | ok resp =>
                simp [process_product_v2, himg, hfp, hm, hg, hup, ha, writeThrough]
                exact writeThrough_append _ _ hnw (by simp [writeThrough])

/-- C9: in single-item mode the exit code is 0 exactly when the fetched
product exists — in that case the (first) `process_product` runs once and
the process exits 0 even when the pipeline attempt fails, since failure is
recorded, not raised — and the exit code is 1 when the product cannot be
found. -/
theorem C9_single_item : ∀ (env : Env) (st : TrackedState) (fetched : Option Product),
    ((single_item_mode env st fetched).1 = 0 ↔ fetched ≠ none) ∧
    (∀ p, fetched = some p →
      single_item_mode env st fetched =
        (0, (process_product_v1 env p st).2.1, (process_product_v1 env p st).2.2)) ∧
    (fetched = none → (single_item_mode env st fetched).1 = 1) := by
  intro env st fetched
  cases fetched with
  | none => simp [single_item_mode]
  | some p => simp [single_item_mode]

/-- C9 (witness): single-item mode on a found product whose generation step
fails still exits 0, with the failure recorded by the pipeline run. -/
theorem C9_single_item_witness :
    single_item_mode envGenFail [] (some prodA) =
      (0, (process_product_v1 envGenFail prodA []).2.1,
          (process_product_v1 envGenFail prodA []).2.2) :=
  (C9_single_item envGenFail [] (some prodA)).2.1 prodA rfl

/-- C10 (counterexample): the two `process_product` definitions are not
observationally equivalent.  On a concrete product where all remote steps
succeed, the first records the attach media status `"READY"` while the
second records `"ready"`, so the tracked-state outcomes differ; and on a
remote world whose `stagedUploadsCreate` returns an empty `stagedTargets`
list, the two `staged_upload_glb` implementations diverge too — the first
stages twice (`MODEL_3D` then `FILE`) and records its composed error, the
second stages once and records the index error — so both the tracked-state
outcomes and the remote-call traces differ. -/
theorem C10_cex :
    (process_product_v1 envOk prodA []).2.1 ≠ (process_product_v2 envOk prodA []).2.1 ∧
    (process_product_v1 envEmptyStage prodA []).2.1 ≠
      (process_product_v2 envEmptyStage prodA []).2.1 ∧
    (process_product_v1 envEmptyStage prodA []).2.2 ≠
      (process_product_v2 envEmptyStage prodA []).2.2 := by
  have hA := success_run_v1 envOk prodA [] imgA [1, 2, 3] "resurl1"
    (some "mediaid1", some "READY")
    [Event.stageCall "MODEL_3D" "auto3d.glb", Event.bytesUpload "upurl1"]
    rfl (by simp [last_fp_of, lookupEntry]) rfl rfl rfl rfl
  have hB := success_run_v2 envOk prodA [] imgA [1, 2, 3] "resurl1" respOk
    [Event.stageCall "FILE" "auto3d.glb", Event.bytesUpload "upurl1"]
    rfl (by simp [last_fp_of, lookupEntry]) rfl rfl rfl rfl
  have hC := uploadfail_run_v1 envEmptyStage prodA [] imgA [1, 2, 3]
    "stagedUploadsCreate did not return a valid upload URL. MODEL_3D errors=, FILE errors="
    [Event.stageCall "MODEL_3D" "auto3d.glb", Event.stageCall "FILE" "auto3d.glb"]
    rfl (by simp [last_fp_of, lookupEntry]) rfl rfl rfl
  have hD := uploadfail_run_v2 envEmptyStage prodA [] imgA [1, 2, 3]
    "list index out of range"
    [Event.stageCall "FILE" "auto3d.glb"]
    rfl (by simp [last_fp_of, lookupEntry]) rfl rfl rfl
  refine ⟨?_, ?_, ?_⟩
  · rw [hA, hB]
    intro hc
    have hstatus : pyOr (some "READY") "PROCESSING" = "ready" :=
      congrArg (fun l : TrackedState => (l.headD ("", ⟨"", "", none⟩)).2.status) hc
    exact absurd hstatus (by decide)
  · rw [hC, hD]
    intro hc
    have herr :
        (some "stagedUploadsCreate did not return a valid upload URL. MODEL_3D errors=, FILE errors=" :
          Option String) = some "list index out of range" :=
      congrArg (fun l : TrackedState => (l.headD ("", ⟨"", "", none⟩)).2.error) hc
    exact absurd herr (by decide)
  · rw [hC, hD]
    intro hc
    have hlen : (7 : Nat) = 6 := congrArg List.length hc
    exact absurd hlen (by decide)

/-- C10 (amended): the two `process_product` definitions agree (same return
value, tracked state and effect trace) on every path that does not reach the
staged-upload step — missing image, unchanged fingerprint, pre-existing 3D
model, generation failure.  Once the staged upload is reached they can
diverge: the two `staged_upload_glb` implementations differ (a
`MODEL_3D`-then-`FILE` fallback with a composed error and a `resourceUrl`
pre-check in the first, a single `FILE` staging indexed at `[0]` in the
second), and at the attach step the first records the attach media status
(default `"PROCESSING"`) and returns whether a media id was present, raising
on attach user errors, while the second always records `"ready"` and returns
`True`, ignoring attach user errors. -/
theorem C10_pre_upload_agreement (env : Env) (p : Product) (st : TrackedState)
    (h : latest_image p = none ∨
      (∃ img, latest_image p = some img ∧
        last_fp_of st p.id = some (image_fingerprint img)) ∨
      has_model3d p = true ∨
      (∃ img msg, latest_image p = some img ∧ env.gen img.url = Except.error msg)) :
    process_product_v1 env p st = process_product_v2 env p st := by
  rcases h with h | ⟨img, h1, h2⟩ | h | ⟨img, msg, h1, hg⟩
  · simp [process_product_v1, process_product_v2, h]
  · simp [process_product_v1, process_product_v2, h1, h2]
  · cases himg : latest_image p with
    | none => simp [process_product_v1, process_product_v2, himg]
    | some img =>
      by_cases hfp : last_fp_of st p.id = some (image_fingerprint img)
      · simp [process_product_v1, process_product_v2, himg, hfp]
      · simp [process_product_v1, process_product_v2, himg, hfp, h]
  · by_cases hfp : last_fp_of st p.id = some (image_fingerprint img)
    · simp [process_product_v1, process_product_v2, h1, hfp]
    · by_cases hm : has_model3d p = true
      · simp [process_product_v1, process_product_v2, h1, hfp, hm]
      · simp [process_product_v1, process_product_v2, h1, hfp, hm, hg]

/-- C10 (witness): agreement of the two definitions on a concrete
generation-failure run. -/
theorem C10_pre_upload_agreement_witness :
    process_product_v1 envGenFail prodA [] = process_product_v2 envGenFail prodA [] :=
  C10_pre_upload_agreement envGenFail prodA []
    (Or.inr (Or.inr (Or.inr ⟨imgA, "boom", rfl, rfl⟩)))

end Poller
